import Mathlib

/-!
Verification development for the langscape orchestration core.

The embedding models, from the TypeScript source:
  - the typed gateway to the scoring backend (src/lib/api.ts): request
    construction and response handling;
  - the asynchronous UI handlers of ContentAnalyzer.tsx and
    PlatformTester.tsx as event-driven state machines over the component
    state (in-flight flag, stored result, stored error);
  - the aggregation of per-platform results in the mock tester
    (citation rate, average position, mock result set).

Numbers on the wire are modelled as rationals; optional record fields
as Option; a thrown Error as the error branch of Except carrying the
message string the code builds.
-/

namespace Langscape

/-! ## Data model (src/lib/api.ts interfaces) -/

/-- One entry of the recommendations array of a platform score
(interface AnalysisResult, src/lib/api.ts lines 28 to 34). -/
structure Recommendation where
  priority : String
  action : String
  impact : ℚ
  effort : String
  description : String
  deriving DecidableEq, Repr

/-- Per-platform value of the platforms record of an AnalysisResult
(src/lib/api.ts lines 25 to 35). -/
structure PlatformScore where
  overall_score : ℚ
  features : List (String × ℚ)
  recommendations : List Recommendation
  deriving DecidableEq, Repr

/-- interface AnalysisResult (src/lib/api.ts lines 24 to 39); the
platforms record is modelled as an association list. -/
structure AnalysisResult where
  platforms : List (String × PlatformScore)
  average_score : ℚ
  top_platform : String
  industry_benchmark : ℚ
  deriving DecidableEq, Repr

/-- interface AnalysisRequest (src/lib/api.ts lines 4 to 9); optional
fields are Option. -/
structure AnalysisRequest where
  content : String
  target_platforms : Option (List String)
  industry : Option String
  brand_voice : Option String
  deriving DecidableEq, Repr

/-- The JSON body that analyzeContent serializes for POST /analyze
(src/lib/api.ts lines 95 to 100). -/
structure AnalyzeBody where
  content : String
  target_platforms : List String
  industry : Option String
  brand_voice : Option String
  deriving DecidableEq, Repr

/-! ## Gateway (class APIClient, src/lib/api.ts) -/

/-- An HTTP response as seen by APIClient.request: numeric status,
status text, and the already-parsed JSON body of type α. -/
structure HttpResponse (α : Type) where
  status : Nat
  statusText : String
  body : α
  deriving DecidableEq, Repr

/-- The ok flag of a fetch Response: status in the 2xx range. -/
def respOk (status : Nat) : Bool :=
  200 ≤ status && status ≤ 299

/-- APIClient.request (src/lib/api.ts lines 74 to 90): one fetch; on a
non-ok status it throws an Error whose message carries the status and
status text; on an ok status it returns the parsed body unchanged.
There is no payload validation and no retry in the source. -/
def request (resp : HttpResponse α) : Except String α :=
  if respOk resp.status then
    Except.ok resp.body
  else
    Except.error ("API Error: " ++ toString resp.status ++ " " ++ resp.statusText)

/-- APIClient.request driven by the sequence of responses the transport
would deliver to successive fetch calls: the call consumes exactly the
first pending response (the single await fetch of the source) and
leaves the rest untouched; with no response available the call stays
suspended (none). -/
def requestFetches (fetches : List (HttpResponse α)) :
    Option (Except String α × List (HttpResponse α)) :=
  match fetches with
  | [] => none
  | r :: rest => some (request r, rest)

/-- The closed platform set used as the default target_platforms
(src/lib/api.ts line 97). -/
def defaultPlatforms : List String :=
  ["chatgpt", "claude", "perplexity", "google_ai"]

/-- The body built by APIClient.analyzeContent (src/lib/api.ts lines 92
to 102): target_platforms falls back to the full platform list when the
request leaves it out (the JS expression request.target_platforms with
the or-else default; an array value, even empty, is kept). -/
def analyzeContentBody (req : AnalysisRequest) : AnalyzeBody :=
  { content := req.content
    target_platforms := req.target_platforms.getD defaultPlatforms
    industry := req.industry
    brand_voice := req.brand_voice }

/-! ## Handler state machines (ContentAnalyzer.tsx, PlatformTester.tsx)

handleAnalyze and handleTest share one shape: validate the text inputs;
on failure set the error and return; otherwise set the in-flight flag,
clear the error, and await the gateway call; when the promise resolves
store the result, when it rejects store the error message, and in both
cases the finally block clears the in-flight flag. We model a component
as a state machine driven by events: a submit (one invocation of the
handler up to its await) and, for each issued request, a later resolve
or reject (the rest of the handler, run when the response arrives).
Issued requests are numbered; the pending list holds the numbers of the
requests whose responses have not arrived yet, so that each issued
request settles at most once. The source code attaches no number to a
response: the continuation writes the component state unconditionally
whenever its response arrives, which the resolve and reject steps below
reproduce. -/

/-- Component state: the in-flight flag (isAnalyzing or isTesting), the
stored successful result, the stored error message, plus bookkeeping of
the issued-but-unsettled requests (pending numbers and the next fresh
number). -/
structure SlotState (α : Type) where
  inFlight : Bool
  result : Option α
  error : Option String
  pending : List Nat
  nextId : Nat
  deriving Repr

/-- The component state before any event: flags false, nothing stored. -/
def initialSlot (α : Type) : SlotState α :=
  { inFlight := false, result := none, error := none, pending := [], nextId := 0 }

/-- Events driving a handler: a user submission carrying the text
inputs, or the arrival of the response to request number id (fulfilled
with a result, or rejected with an error message). -/
inductive Event (ι α : Type) where
  | submit (input : ι)
  | resolve (id : Nat) (res : α)
  | reject (id : Nat) (msg : String)
  deriving Repr

/-- One step of a handler, parameterized by the validation predicate on
the inputs and the validation error message. submit with invalid input
only sets the error (the early return before any gateway call: no
request number is issued, the in-flight flag is untouched). submit with
valid input sets the in-flight flag, clears the error, and issues a
fresh request number. resolve stores the result and clears the
in-flight flag; reject stores the message and clears the flag; both act
unconditionally on arrival, exactly as the source continuations do, and
are guarded only by the pending membership that says the response
belongs to a request that was actually issued and not yet settled. -/
def step (validate : ι → Bool) (verr : String)
    (s : SlotState α) : Event ι α → SlotState α
  | .submit input =>
    if validate input then
      { s with inFlight := true, error := none,
               pending := s.pending ++ [s.nextId], nextId := s.nextId + 1 }
    else
      { s with error := some verr }
  | .resolve id res =>
    if id ∈ s.pending then
      { s with result := some res, inFlight := false,
               pending := s.pending.erase id }
    else s
  | .reject id msg =>
    if id ∈ s.pending then
      { s with error := some msg, inFlight := false,
               pending := s.pending.erase id }
    else s

/-- Run a handler over a sequence of events. -/
def run (validate : ι → Bool) (verr : String)
    (s : SlotState α) (events : List (Event ι α)) : SlotState α :=
  events.foldl (step validate verr) s

/-- The JS guard !s.trim() of the handlers succeeds exactly on a string
that is empty or consists of whitespace only; modelled as the
all-whitespace test on the character list. -/
def blankJS (s : String) : Bool :=
  s.toList.all Char.isWhitespace

/-- The validation of handleAnalyze (ContentAnalyzer.tsx line 33): the
content must not be empty or whitespace-only. -/
def analyzeValidate (content : String) : Bool :=
  !blankJS content

/-- The validation error message of handleAnalyze. -/
def analyzeValidationMsg : String :=
  "Please enter some content to analyze"

/-- One step of the ContentAnalyzer component (handleAnalyze and the
settlement of its gateway call). -/
def analyzerStep (s : SlotState AnalysisResult) (e : Event String AnalysisResult) :
    SlotState AnalysisResult :=
  step analyzeValidate analyzeValidationMsg s e

/-- The validation of handleTest (PlatformTester.tsx line 35): neither
the query nor the content may be empty or whitespace-only. -/
def testValidate (input : String × String) : Bool :=
  !blankJS input.1 && !blankJS input.2

/-- The validation error message of handleTest. -/
def testValidationMsg : String :=
  "Please enter both a search query and content to test"

/-- interface PlatformResult of the networked tester
(PlatformTester.tsx lines 6 to 12). -/
structure NetPlatformResult where
  appears : Bool
  position : Option Nat
  snippet : Option String
  confidence_score : ℚ
  optimization_score : ℚ
  deriving DecidableEq, Repr

/-- interface TestResult (PlatformTester.tsx lines 14 to 18); the
per-platform record is an association list. -/
structure TestResult where
  query : String
  results : List (String × NetPlatformResult)
  visibility_score : ℚ
  deriving DecidableEq, Repr

/-- One step of the PlatformTester component (handleTest and the
settlement of its gateway call). -/
def testerStep (s : SlotState TestResult) (e : Event (String × String) TestResult) :
    SlotState TestResult :=
  step testValidate testValidationMsg s e

/-! ## Mock tester aggregation (src/unnamed/part_002) -/

/-- interface PlatformResult of the mock tester (part_002 lines 7 to
14): cited flag, optional position and snippet, confidence and response
time. -/
structure PlatformResult where
  platform : String
  cited : Bool
  position : Option Nat
  snippet : Option String
  confidence : ℚ
  responseTime : ℚ
  deriving DecidableEq, Repr

/-- JS Math.round on a rational: the nearest integer, halves rounded
up (Math.round x = floor of x + 1/2 for the values that occur here). -/
def jsRound (x : ℚ) : ℤ :=
  ⌊x + 1 / 2⌋

/-- The citation rate of the mock tester (part_002 lines 67 to 69):
Math.round of (number of cited results divided by number of results,
times 100). Meaningful only for a non-empty result list, which is the
only case the source computes it for display. -/
def citationRate (results : List PlatformResult) : ℤ :=
  jsRound ((((results.filter (fun r => r.cited)).length : ℚ) /
    (results.length : ℚ)) * 100)

/-- The filter of the average-position computation (part_002 lines 138
to 141): the JS test r.cited && r.position keeps a result when it is
cited and its position is present and non-zero (JS truthiness of the
optional number). -/
def citedWithPosition (results : List PlatformResult) : List PlatformResult :=
  results.filter (fun r => r.cited && r.position.getD 0 ≠ 0)

/-- The average position shown by the mock tester (part_002 lines 136
to 143): when at least one result passes the citedWithPosition filter,
the mean of their positions (the JS sum accumulates r.position with
or-else 0); otherwise the literal string N-slash-A, modelled as none —
in that branch the source never reaches the division. -/
def avgPosition (results : List PlatformResult) : Option ℚ :=
  if 0 < (citedWithPosition results).length then
    some (((citedWithPosition results).map
      (fun r => ((r.position.getD 0 : Nat) : ℚ))).sum /
      ((citedWithPosition results).length : ℚ))
  else none

/-- The fixed mock result set produced by testPlatforms of the mock
tester (part_002 lines 29 to 60); the snippets embed the first 100
characters of the submitted content. -/
def mockResults (content : String) : List PlatformResult :=
  [ { platform := "ChatGPT", cited := true, position := some 2,
      snippet := some ("According to recent analysis, " ++ content.take 100 ++ "..."),
      confidence := 92 / 100, responseTime := 12 / 10 },
    { platform := "Claude", cited := true, position := some 1,
      snippet := some ("Based on the comprehensive guide, " ++ content.take 100 ++ "..."),
      confidence := 88 / 100, responseTime := 9 / 10 },
    { platform := "Perplexity", cited := false, position := none,
      snippet := none,
      confidence := 45 / 100, responseTime := 15 / 10 },
    { platform := "Google AI", cited := true, position := some 3,
      snippet := some ("The analysis shows that " ++ content.take 100 ++ "..."),
      confidence := 76 / 100, responseTime := 21 / 10 } ]

/-! ## Spec-side invariants and discipline -/

/-- The data-model invariants of an AnalysisResult as the specification
states them in its section 3; this definition follows the wording of
the spec, to be compared with what the gateway code actually checks:
per-platform scores within 0 and 100, average score within 0 and 100
and within tolerance 1/2 of the mean of the per-platform scores, and
the top platform attaining the maximum per-platform score. -/
def specAnalysisInvariants (res : AnalysisResult) : Prop :=
  (∀ p ∈ res.platforms, 0 ≤ p.2.overall_score ∧ p.2.overall_score ≤ 100) ∧
  (0 ≤ res.average_score ∧ res.average_score ≤ 100) ∧
  |res.average_score -
      (res.platforms.map (fun p => p.2.overall_score)).sum /
        (res.platforms.length : ℚ)| ≤ 1 / 2 ∧
  ∃ p ∈ res.platforms, p.1 = res.top_platform ∧
    ∀ q ∈ res.platforms, q.2.overall_score ≤ p.2.overall_score

/-- A 2xx payload that violates the section-3 invariants: its average
score is 200, outside the 0 to 100 range and far from the mean of the
per-platform scores, and its top platform names a platform that is not
in the set. -/
def badAnalysis : AnalysisResult :=
  { platforms := [("chatgpt",
      { overall_score := 50, features := [], recommendations := [] })]
    average_score := 200
    top_platform := "claude"
    industry_benchmark := 50 }

/-- A first analysis payload, used to replay an out-of-order pair of
responses. -/
def resA : AnalysisResult :=
  { platforms := [("chatgpt",
      { overall_score := 40, features := [], recommendations := [] })]
    average_score := 40
    top_platform := "chatgpt"
    industry_benchmark := 50 }

/-- A second analysis payload, distinct from the first. -/
def resB : AnalysisResult :=
  { platforms := [("chatgpt",
      { overall_score := 90, features := [], recommendations := [] })]
    average_score := 90
    top_platform := "chatgpt"
    industry_benchmark := 50 }

/-- The out-of-order replay: request 0 is submitted, then request 1 is
submitted while 0 is still outstanding; the response of request 1
arrives first, then the response of request 0. Nothing in handleAnalyze
itself guards against the overlapping submissions. -/
def staleTrace : List (Event String AnalysisResult) :=
  [Event.submit "first draft", Event.submit "second draft",
   Event.resolve 1 resB, Event.resolve 0 resA]

/-- An event list is button-disciplined when every submission happens
while the in-flight flag is down. The rendered UI enforces exactly this
by disabling the submit button while a request is in flight (the
disabled attribute at ContentAnalyzer.tsx line 103 and
PlatformTester.tsx line 149); the handler functions themselves do not. -/
def disciplined (validate : ι → Bool) (verr : String) :
    SlotState α → List (Event ι α) → Bool
  | _, [] => true
  | s, Event.submit input :: rest =>
    !s.inFlight &&
      disciplined validate verr (step validate verr s (Event.submit input)) rest
  | s, Event.resolve id res :: rest =>
    disciplined validate verr (step validate verr s (Event.resolve id res)) rest
  | s, Event.reject id msg :: rest =>
    disciplined validate verr (step validate verr s (Event.reject id msg)) rest

/-- The invariant maintained by button-disciplined executions: at most
one request is outstanding, every outstanding request is the most
recently issued one, and the in-flight flag is up exactly while a
request is outstanding. -/
def goodState (s : SlotState α) : Prop :=
  s.pending.length ≤ 1 ∧
  (∀ id ∈ s.pending, id + 1 = s.nextId) ∧
  (s.inFlight = true ↔ s.pending ≠ [])

/-! ## Helper lemmas -/

/-- A list of length at most one that contains an element is exactly
the singleton of that element. -/
theorem pending_singleton {l : List Nat} {id : Nat}
    (hlen : l.length ≤ 1) (hmem : id ∈ l) : l = [id] := by
  match l with
  | [] => cases hmem
  | [a] =>
    rcases List.mem_singleton.mp hmem with rfl
    rfl
  | a :: b :: t => simp at hlen

/-- The initial component state satisfies the discipline invariant. -/
theorem goodState_initial (α : Type) : goodState (initialSlot α) := by
  refine ⟨by simp [initialSlot], by simp [initialSlot], by simp [initialSlot]⟩

/-- One step preserves the discipline invariant, provided a submission
only happens while the in-flight flag is down. -/
theorem goodState_step {ι α : Type} {validate : ι → Bool} {verr : String}
    {s : SlotState α} (hs : goodState s) (e : Event ι α)
    (he : ∀ input, e = Event.submit input → s.inFlight = false) :
    goodState (step validate verr s e) := by
  obtain ⟨hlen, hid, hiff⟩ := hs
  cases e with
  | submit input =>
    have hflag : s.inFlight = false := he input rfl
    have hpend : s.pending = [] := by
      by_contra hne
      rw [hflag] at hiff
      exact (Bool.false_ne_true (hiff.mpr hne))
    by_cases hv : validate input = true
    · simp only [step, hv, if_pos]
      exact ⟨by simp [hpend], by simp [hpend], by simp [hpend]⟩
    · simp only [step, hv, if_neg, Bool.false_eq_true, not_false_iff]
      exact ⟨hlen, hid, hiff⟩
  | resolve id res =>
    by_cases hmem : id ∈ s.pending
    · have hsing : s.pending = [id] := pending_singleton hlen hmem
      simp only [step, hmem, if_pos, hsing]
      exact ⟨by simp, by simp, by simp⟩
    · simp only [step, hmem, if_neg, not_false_iff]
      exact ⟨hlen, hid, hiff⟩
  | reject id msg =>
    by_cases hmem : id ∈ s.pending
    · have hsing : s.pending = [id] := pending_singleton hlen hmem
      simp only [step, hmem, if_pos, hsing]
      exact ⟨by simp, by simp, by simp⟩
    · simp only [step, hmem, if_neg, not_false_iff]
      exact ⟨hlen, hid, hiff⟩

/-- A button-disciplined run from a state satisfying the discipline
invariant ends in a state satisfying it. -/
theorem goodState_run {ι α : Type} {validate : ι → Bool} {verr : String}
    (events : List (Event ι α)) (s : SlotState α) (hs : goodState s)
    (hd : disciplined validate verr s events = true) :
    goodState (run validate verr s events) := by
  induction events generalizing s with
  | nil => simpa [run] using hs
  | cons e rest ih =>
    cases e with
    | submit input =>
      rw [disciplined, Bool.and_eq_true] at hd
      have hflag : s.inFlight = false := by
        rcases hd with ⟨h1, _⟩
        simpa using h1
      have hstep : goodState (step validate verr s (Event.submit input)) :=
        goodState_step ⟨hs.1, hs.2.1, hs.2.2⟩ _
          (fun _ h => by cases h; exact hflag)
      simpa [run] using ih _ hstep hd.2
    | resolve id res =>
      rw [disciplined] at hd
      have hstep : goodState (step validate verr s (Event.resolve id res)) :=
        goodState_step ⟨hs.1, hs.2.1, hs.2.2⟩ _ (fun _ h => by cases h)
      simpa [run] using ih _ hstep hd
    | reject id msg =>
      rw [disciplined] at hd
      have hstep : goodState (step validate verr s (Event.reject id msg)) :=
        goodState_step ⟨hs.1, hs.2.1, hs.2.2⟩ _ (fun _ h => by cases h)
      simpa [run] using ih _ hstep hd

/-- A concrete visibility payload, used to exercise the tester slot. -/
def tRes : TestResult :=
  { query := "best tools"
    results := [("chatgpt",
      { appears := true, position := some 1, snippet := none,
        confidence_score := 9 / 10, optimization_score := 80 })]
    visibility_score := 75 }

/-! ## Claims -/

/-- Claim C1, counterexample. The claim states that a response
belonging to a superseded request is discarded and cannot overwrite the
result of the most recently submitted request. Replaying handleAnalyze
on the out-of-order trace — request 0 submitted, request 1 submitted,
response of 1 arrives, response of 0 arrives last — leaves the result
of request 0 in the component state, overwriting the result of the most
recently submitted request 1: the code carries no sequence numbers and
its continuations write the state unconditionally on arrival. -/
theorem stale_response_overwrites_newer_result :
    (run analyzeValidate analyzeValidationMsg
      (initialSlot AnalysisResult) staleTrace).result = some resA ∧
    resA ≠ resB := by
  constructor
  · rfl
  · decide

/-- Claim C1, amended. The handlers themselves perform no staleness
suppression, but every submission path in the UI goes through a button
that is disabled while the in-flight flag is up; under that discipline
at most one request per slot is ever outstanding, and every outstanding
request is the most recently issued one — so a response that settles a
slot always belongs to the most recently submitted request, for both
the analyze slot and the test slot. -/
theorem disciplined_run_pending_is_latest
    (evA : List (Event String AnalysisResult))
    (evT : List (Event (String × String) TestResult))
    (hA : disciplined analyzeValidate analyzeValidationMsg
      (initialSlot AnalysisResult) evA = true)
    (hT : disciplined testValidate testValidationMsg
      (initialSlot TestResult) evT = true) :
    ((run analyzeValidate analyzeValidationMsg
        (initialSlot AnalysisResult) evA).pending.length ≤ 1 ∧
      ∀ id ∈ (run analyzeValidate analyzeValidationMsg
        (initialSlot AnalysisResult) evA).pending,
        id + 1 = (run analyzeValidate analyzeValidationMsg
          (initialSlot AnalysisResult) evA).nextId) ∧
    ((run testValidate testValidationMsg
        (initialSlot TestResult) evT).pending.length ≤ 1 ∧
      ∀ id ∈ (run testValidate testValidationMsg
        (initialSlot TestResult) evT).pending,
        id + 1 = (run testValidate testValidationMsg
          (initialSlot TestResult) evT).nextId) := by
  have hgA := goodState_run evA _ (goodState_initial AnalysisResult) hA
  have hgT := goodState_run evT _ (goodState_initial TestResult) hT
  exact ⟨⟨hgA.1, hgA.2.1⟩, ⟨hgT.1, hgT.2.1⟩⟩

/-- Claim C1, witness for the amended theorem: two concrete
button-disciplined traces, one per slot. -/
theorem disciplined_run_pending_is_latest_witness :
    disciplined analyzeValidate analyzeValidationMsg
      (initialSlot AnalysisResult)
      [Event.submit "draft", Event.resolve 0 resA,
       Event.submit "second draft", Event.resolve 1 resB] = true ∧
    disciplined testValidate testValidationMsg
      (initialSlot TestResult)
      [Event.submit ("best tools", "some content"), Event.resolve 0 tRes] = true ∧
    (((run analyzeValidate analyzeValidationMsg (initialSlot AnalysisResult)
        [Event.submit "draft", Event.resolve 0 resA,
         Event.submit "second draft", Event.resolve 1 resB]).pending.length ≤ 1 ∧
      ∀ id ∈ (run analyzeValidate analyzeValidationMsg (initialSlot AnalysisResult)
        [Event.submit "draft", Event.resolve 0 resA,
         Event.submit "second draft", Event.resolve 1 resB]).pending,
        id + 1 = (run analyzeValidate analyzeValidationMsg (initialSlot AnalysisResult)
          [Event.submit "draft", Event.resolve 0 resA,
           Event.submit "second draft", Event.resolve 1 resB]).nextId) ∧
    ((run testValidate testValidationMsg (initialSlot TestResult)
        [Event.submit ("best tools", "some content"), Event.resolve 0 tRes]).pending.length ≤ 1 ∧
      ∀ id ∈ (run testValidate testValidationMsg (initialSlot TestResult)
        [Event.submit ("best tools", "some content"), Event.resolve 0 tRes]).pending,
        id + 1 = (run testValidate testValidationMsg (initialSlot TestResult)
          [Event.submit ("best tools", "some content"), Event.resolve 0 tRes]).nextId)) :=
  ⟨by decide, by decide,
    disciplined_run_pending_is_latest _ _ (by decide) (by decide)⟩

/-- Claim C3: every settlement in error leaves the previously stored
successful result untouched and stores the new error next to it. For
both slots: a rejection (transport failure reaching the catch block)
never changes the stored result and, for an outstanding request, stores
the error message; a validation failure on submit also never changes
the stored result. The error never clears the last good result. -/
theorem error_settlement_preserves_result
    (s : SlotState AnalysisResult) (t : SlotState TestResult)
    (id id2 : Nat) (msg content q c : String)
    (hid : id ∈ s.pending) (hid2 : id2 ∈ t.pending)
    (hc : blankJS content = true) (hqc : blankJS q = true ∨ blankJS c = true) :
    (analyzerStep s (Event.reject id msg)).result = s.result ∧
    (analyzerStep s (Event.reject id msg)).error = some msg ∧
    (analyzerStep s (Event.submit content)).result = s.result ∧
    (testerStep t (Event.reject id2 msg)).result = t.result ∧
    (testerStep t (Event.reject id2 msg)).error = some msg ∧
    (testerStep t (Event.submit (q, c))).result = t.result := by
  have hav : analyzeValidate content = false := by
    simp [analyzeValidate, hc]
  have htv : testValidate (q, c) = false := by
    rcases hqc with h | h <;> simp [testValidate, h]
  refine ⟨?_, ?_, ?_, ?_, ?_, ?_⟩
  · simp [analyzerStep, step, hid]
  · simp [analyzerStep, step, hid]
  · simp [analyzerStep, step, hav]
  · simp [testerStep, step, hid2]
  · simp [testerStep, step, hid2]
  · simp [testerStep, step, htv]

/-- An analyzer slot state with a stored successful result and an
outstanding request numbered 0. -/
def busyAnalyzer : SlotState AnalysisResult :=
  { inFlight := true, result := some resA, error := none, pending := [0], nextId := 1 }

/-- A tester slot state with a stored successful result and an
outstanding request numbered 0. -/
def busyTester : SlotState TestResult :=
  { inFlight := true, result := some tRes, error := none, pending := [0], nextId := 1 }

/-- The transport error message for an HTTP 500 response. -/
def err500 : String :=
  "API Error: 500 Internal Server Error"

/-- Claim C3, witness: concrete slot states holding a previous
successful result, a rejected outstanding request, and blank inputs. -/
theorem error_settlement_preserves_result_witness :
    (0 ∈ busyAnalyzer.pending) ∧ (0 ∈ busyTester.pending) ∧
    blankJS "   " = true ∧ (blankJS "" = true ∨ blankJS "body" = true) ∧
    ((analyzerStep busyAnalyzer (Event.reject 0 err500)).result = busyAnalyzer.result ∧
     (analyzerStep busyAnalyzer (Event.reject 0 err500)).error = some err500 ∧
     (analyzerStep busyAnalyzer (Event.submit "   ")).result = busyAnalyzer.result ∧
     (testerStep busyTester (Event.reject 0 err500)).result = busyTester.result ∧
     (testerStep busyTester (Event.reject 0 err500)).error = some err500 ∧
     (testerStep busyTester (Event.submit ("", "body"))).result = busyTester.result) :=
  ⟨by decide, by decide, by decide, Or.inl (by decide),
    error_settlement_preserves_result busyAnalyzer busyTester 0 0 err500 "   " "" "body"
      (by decide) (by decide) (by decide) (Or.inl (by decide))⟩

/-- Claim C4: a submission whose required inputs are empty or
whitespace-only only stores the validation message — the resulting
state is the old one with the error field replaced, so the in-flight
flag is untouched (the slot stays Idle) and no request is issued (the
pending list and the request counter are unchanged: no transport
call). Holds for both handlers. -/
theorem blank_submit_short_circuits
    (s : SlotState AnalysisResult) (t : SlotState TestResult)
    (content q c : String)
    (hc : blankJS content = true) (hqc : blankJS q = true ∨ blankJS c = true) :
    analyzerStep s (Event.submit content) = { s with error := some analyzeValidationMsg } ∧
    testerStep t (Event.submit (q, c)) = { t with error := some testValidationMsg } := by
  have hav : analyzeValidate content = false := by
    simp [analyzeValidate, hc]
  have htv : testValidate (q, c) = false := by
    rcases hqc with h | h <;> simp [testValidate, h]
  constructor
  · simp [analyzerStep, step, hav]
  · simp [testerStep, step, htv]

/-- Claim C4, witness: a whitespace-only analyze content and an empty
test query, from the Idle initial state. -/
theorem blank_submit_short_circuits_witness :
    blankJS "   " = true ∧ (blankJS "" = true ∨ blankJS "body" = true) ∧
    (analyzerStep (initialSlot AnalysisResult) (Event.submit "   ") =
      { initialSlot AnalysisResult with error := some analyzeValidationMsg } ∧
     testerStep (initialSlot TestResult) (Event.submit ("", "body")) =
      { initialSlot TestResult with error := some testValidationMsg }) :=
  ⟨by decide, Or.inl (by decide),
    blank_submit_short_circuits (initialSlot AnalysisResult) (initialSlot TestResult)
      "   " "" "body" (by decide) (Or.inl (by decide))⟩

/-- Claim C10: once an issued request settles — fulfilled or rejected —
the finally block clears the in-flight flag: after a resolve or reject
of an outstanding request the isAnalyzing and isTesting flags are
false, so the slot never remains marked in-flight after a settled
response. -/
theorem settled_request_clears_in_flight
    (s : SlotState AnalysisResult) (t : SlotState TestResult)
    (id id2 : Nat) (res : AnalysisResult) (res2 : TestResult) (msg : String)
    (hid : id ∈ s.pending) (hid2 : id2 ∈ t.pending) :
    (analyzerStep s (Event.resolve id res)).inFlight = false ∧
    (analyzerStep s (Event.reject id msg)).inFlight = false ∧
    (testerStep t (Event.resolve id2 res2)).inFlight = false ∧
    (testerStep t (Event.reject id2 msg)).inFlight = false := by
  refine ⟨?_, ?_, ?_, ?_⟩
  · simp [analyzerStep, step, hid]
  · simp [analyzerStep, step, hid]
  · simp [testerStep, step, hid2]
  · simp [testerStep, step, hid2]

/-- Claim C10, witness: a concrete outstanding request on each slot,
settled both ways. -/
theorem settled_request_clears_in_flight_witness :
    (0 ∈ busyAnalyzer.pending) ∧ (0 ∈ busyTester.pending) ∧
    ((analyzerStep busyAnalyzer (Event.resolve 0 resA)).inFlight = false ∧
     (analyzerStep busyAnalyzer (Event.reject 0 err500)).inFlight = false ∧
     (testerStep busyTester (Event.resolve 0 tRes)).inFlight = false ∧
     (testerStep busyTester (Event.reject 0 err500)).inFlight = false) :=
  ⟨by decide, by decide,
    settled_request_clears_in_flight busyAnalyzer busyTester 0 0 resA tRes
      err500 (by decide) (by decide)⟩

/-- Claim C2, counterexample. The claim states that every 2xx payload
is checked against the section-3 invariants and that a violating
payload surfaces a ContractError distinct from transport failures. The
gateway code performs no such check: it returns response.json()
unchanged for every ok response, and the only error it ever constructs
is the transport error for a non-ok status. A 2xx payload whose average
score is 200 — violating the range, the tolerance around the mean, and
the arg-max invariant — is returned to the caller as a success. -/
theorem invalid_payload_returned_as_success :
    ¬ specAnalysisInvariants badAnalysis ∧
    request { status := 200, statusText := "OK", body := badAnalysis } =
      Except.ok badAnalysis := by
  constructor
  · intro h
    have h2 := h.2.1.2
    norm_num [badAnalysis] at h2
  · rfl

/-- Claim C2, amended. The gateway performs no invariant validation on
success payloads: every response with a 2xx status has its parsed body
returned to the caller unchanged, whatever it contains, and no
ContractError distinct from transport failures exists — the transport
error for a non-2xx status is the only error the gateway raises. -/
theorem ok_response_body_returned_unchecked
    (resp : HttpResponse AnalysisResult)
    (hok : 200 ≤ resp.status ∧ resp.status ≤ 299) :
    request resp = Except.ok resp.body := by
  have : respOk resp.status = true := by
    simp [respOk, hok.1, hok.2]
  simp [request, this]

/-- Claim C2, witness for the amended theorem: the invalid payload of
the counterexample, carried by a 200 response, comes back unchanged. -/
theorem ok_response_body_returned_unchecked_witness :
    (200 ≤ 200 ∧ 200 ≤ 299) ∧
    request { status := 200, statusText := "OK", body := badAnalysis } =
      Except.ok ({ status := 200, statusText := "OK", body := badAnalysis } :
        HttpResponse AnalysisResult).body :=
  ⟨by decide,
    ok_response_body_returned_unchecked
      { status := 200, statusText := "OK", body := badAnalysis } (by decide)⟩

/-- Claim C5: one call of APIClient.request consumes exactly the first
response the transport delivers and leaves every further response
untouched — there is no second fetch and no automatic retry, in
particular not after a failure; a non-2xx status yields the thrown
transport error carrying the numeric status and the status text, and a
2xx status yields the parsed payload. -/
theorem request_single_fetch_no_retry
    {α : Type} (r : HttpResponse α) (rest : List (HttpResponse α)) :
    (¬ (200 ≤ r.status ∧ r.status ≤ 299) →
      requestFetches (r :: rest) =
        some (Except.error ("API Error: " ++ toString r.status ++ " " ++ r.statusText), rest)) ∧
    ((200 ≤ r.status ∧ r.status ≤ 299) →
      requestFetches (r :: rest) = some (Except.ok r.body, rest)) := by
  constructor
  · intro hbad
    have : respOk r.status = false := by
      rcases Nat.lt_or_ge r.status 200 with h | h
      · simp [respOk, Nat.not_le.mpr h]
      · have h2 : ¬ r.status ≤ 299 := fun hle => hbad ⟨h, hle⟩
        simp [respOk, h2]
    simp [requestFetches, request, this]
  · intro hok
    have : respOk r.status = true := by
      simp [respOk, hok.1, hok.2]
    simp [requestFetches, request, this]

/-- Claim C5, witness: an HTTP 500 response followed by a spare 200
response that is never fetched; the call surfaces the transport error
and leaves the spare response in place. -/
theorem request_single_fetch_no_retry_witness :
    (¬ (200 ≤ 500 ∧ 500 ≤ 299) →
      requestFetches
        [({ status := 500, statusText := "Internal Server Error", body := badAnalysis } :
            HttpResponse AnalysisResult),
         { status := 200, statusText := "OK", body := resA }] =
        some (Except.error ("API Error: " ++ toString 500 ++ " " ++ "Internal Server Error"),
          [{ status := 200, statusText := "OK", body := resA }])) ∧
    ((200 ≤ 500 ∧ 500 ≤ 299) →
      requestFetches
        [({ status := 500, statusText := "Internal Server Error", body := badAnalysis } :
            HttpResponse AnalysisResult),
         { status := 200, statusText := "OK", body := resA }] =
        some (Except.ok badAnalysis, [{ status := 200, statusText := "OK", body := resA }])) :=
  request_single_fetch_no_retry
    { status := 500, statusText := "Internal Server Error", body := badAnalysis }
    [{ status := 200, statusText := "OK", body := resA }]

/-- Claim C9: the body analyzeContent serializes carries the full
closed platform set as target_platforms when the request leaves the
field out, and carries a supplied set unchanged. -/
theorem analyze_target_platforms_default
    (req : AnalysisRequest) :
    (req.target_platforms = none →
      (analyzeContentBody req).target_platforms =
        ["chatgpt", "claude", "perplexity", "google_ai"]) ∧
    (∀ l, req.target_platforms = some l →
      (analyzeContentBody req).target_platforms = l) := by
  constructor
  · intro h
    simp [analyzeContentBody, h, defaultPlatforms]
  · intro l h
    simp [analyzeContentBody, h]

/-- Claim C9, witness: one request omitting the field and one supplying
a two-platform set. -/
theorem analyze_target_platforms_default_witness :
    (analyzeContentBody
      { content := "text", target_platforms := none,
        industry := none, brand_voice := none }).target_platforms =
      ["chatgpt", "claude", "perplexity", "google_ai"] ∧
    (analyzeContentBody
      { content := "text", target_platforms := some ["claude", "perplexity"],
        industry := none, brand_voice := none }).target_platforms =
      ["claude", "perplexity"] :=
  ⟨(analyze_target_platforms_default
      { content := "text", target_platforms := none,
        industry := none, brand_voice := none }).1 rfl,
   (analyze_target_platforms_default
      { content := "text", target_platforms := some ["claude", "perplexity"],
        industry := none, brand_voice := none }).2 ["claude", "perplexity"] rfl⟩

/-- JS Math.round lands within one half of its argument. -/
theorem jsRound_close (x : ℚ) : |(jsRound x : ℚ) - x| ≤ 1 / 2 := by
  rw [abs_le]
  constructor
  · have h := Int.lt_floor_add_one (x + 1 / 2)
    unfold jsRound
    push_cast at h ⊢
    linarith
  · have h := Int.floor_le (x + 1 / 2)
    unfold jsRound
    push_cast at h ⊢
    linarith

/-- Filtering with pointwise equal predicates gives the same list. -/
theorem filter_congr_mem {α : Type} {l : List α} {p q : α → Bool}
    (h : ∀ x ∈ l, p x = q x) : l.filter p = l.filter q := by
  induction l with
  | nil => rfl
  | cons a t ih =>
    have ha := h a (List.mem_cons_self a t)
    have ht := ih fun x hx => h x (List.mem_cons_of_mem a hx)
    by_cases hp : p a = true
    · rw [List.filter_cons_of_pos hp, List.filter_cons_of_pos (ha ▸ hp), ht]
    · have hq : ¬ q a = true := fun hh => hp (ha ▸ hh)
      rw [List.filter_cons_of_neg hp, List.filter_cons_of_neg hq, ht]

/-- Claim C6: for a non-empty result set, the citation rate shown by
the mock tester is the fraction of cited results, expressed as a
percentage and rounded to a nearest integer: the integer it computes
lies within one half of the exact percentage. -/
theorem citation_rate_is_rounded_percentage
    (results : List PlatformResult) (_hne : results ≠ []) :
    |(citationRate results : ℚ) -
      ((results.filter (fun r => r.cited)).length : ℚ) /
        (results.length : ℚ) * 100| ≤ 1 / 2 := by
  unfold citationRate
  exact jsRound_close _

/-- Claim C6, witness: the four mock results, three of them cited; the
computed rate 75 is within one half of the exact percentage 75. -/
theorem citation_rate_is_rounded_percentage_witness :
    mockResults "guide" ≠ [] ∧
    |(citationRate (mockResults "guide") : ℚ) -
      (((mockResults "guide").filter (fun r => r.cited)).length : ℚ) /
        ((mockResults "guide").length : ℚ) * 100| ≤ 1 / 2 :=
  ⟨by decide, citation_rate_is_rounded_percentage (mockResults "guide") (by decide)⟩

/-- Claim C7: given that every present position is non-zero (the data
model makes positions positive integers), the mean position shown by
the mock tester averages exactly over the results that are cited and
carry a position; when that subset is empty the display is the literal
N-slash-A (none) and the division branch is never taken. -/
theorem avg_position_mean_over_cited
    (results : List PlatformResult)
    (hpos : ∀ r ∈ results, r.position ≠ some 0) :
    (results.filter (fun r => r.cited && r.position.isSome) = [] →
      avgPosition results = none) ∧
    (results.filter (fun r => r.cited && r.position.isSome) ≠ [] →
      avgPosition results = some
        (((results.filter (fun r => r.cited && r.position.isSome)).map
            (fun r => ((r.position.getD 0 : Nat) : ℚ))).sum /
          ((results.filter (fun r => r.cited && r.position.isSome)).length : ℚ))) := by
  have key : citedWithPosition results =
      results.filter (fun r => r.cited && r.position.isSome) := by
    unfold citedWithPosition
    refine filter_congr_mem ?_
    intro r hr
    cases hp : r.position with
    | none => simp [hp]
    | some p =>
      have hne : p ≠ 0 := by
        intro h0
        exact hpos r hr (h0 ▸ hp)
      simp [hp, hne]
  constructor
  · intro h
    unfold avgPosition
    rw [key, h]
    simp
  · intro h
    have hlen : 0 < (results.filter (fun r => r.cited && r.position.isSome)).length :=
      List.length_pos.mpr h
    unfold avgPosition
    rw [key]
    simp [hlen]

/-- Claim C7, witness: the mock result set, whose cited results hold
positions 2, 1 and 3; the displayed mean is taken over exactly those
three. -/
theorem avg_position_mean_over_cited_witness :
    (∀ r ∈ mockResults "guide", r.position ≠ some 0) ∧
    (mockResults "guide").filter (fun r => r.cited && r.position.isSome) ≠ [] ∧
    avgPosition (mockResults "guide") = some
      ((((mockResults "guide").filter (fun r => r.cited && r.position.isSome)).map
          (fun r => ((r.position.getD 0 : Nat) : ℚ))).sum /
        (((mockResults "guide").filter (fun r => r.cited && r.position.isSome)).length : ℚ)) :=
  ⟨by decide, by decide,
    (avg_position_mean_over_cited (mockResults "guide") (by decide)).2 (by decide)⟩

/-- Claim C8: every per-platform result the mock tester produces
satisfies the position invariant — the position is absent exactly when
the platform is not cited, and a cited platform carries a positive
integer position. -/
theorem mock_results_position_invariant
    (content : String) (r : PlatformResult) (hr : r ∈ mockResults content) :
    (r.position = none ↔ r.cited = false) ∧
    (r.cited = true → ∃ p, r.position = some p ∧ 0 < p) := by
  simp only [mockResults, List.mem_cons, List.mem_singleton, List.not_mem_nil, or_false] at hr
  rcases hr with rfl | rfl | rfl | rfl
  · exact ⟨by simp, fun _ => ⟨2, rfl, by norm_num⟩⟩
  · exact ⟨by simp, fun _ => ⟨1, rfl, by norm_num⟩⟩
  · exact ⟨by simp, fun h => by simp at h⟩
  · exact ⟨by simp, fun _ => ⟨3, rfl, by norm_num⟩⟩

/-- Claim C8, witness: the Perplexity entry of the mock output — not
cited and with no position. -/
theorem mock_results_position_invariant_witness :
    ({ platform := "Perplexity", cited := false, position := none,
       snippet := none, confidence := 45 / 100,
       responseTime := 15 / 10 } : PlatformResult) ∈ mockResults "guide" ∧
    ((({ platform := "Perplexity", cited := false, position := none,
         snippet := none, confidence := 45 / 100,
         responseTime := 15 / 10 } : PlatformResult).position = none ↔
      ({ platform := "Perplexity", cited := false, position := none,
         snippet := none, confidence := 45 / 100,
         responseTime := 15 / 10 } : PlatformResult).cited = false) ∧
     (({ platform := "Perplexity", cited := false, position := none,
         snippet := none, confidence := 45 / 100,
         responseTime := 15 / 10 } : PlatformResult).cited = true →
       ∃ p, ({ platform := "Perplexity", cited := false, position := none,
               snippet := none, confidence := 45 / 100,
               responseTime := 15 / 10 } : PlatformResult).position = some p ∧ 0 < p)) :=
  ⟨by rw [mockResults]; exact List.mem_cons_of_mem _ (List.mem_cons_of_mem _ (List.mem_cons_self _ _)),
    mock_results_position_invariant "guide"
      { platform := "Perplexity", cited := false, position := none,
        snippet := none, confidence := 45 / 100, responseTime := 15 / 10 }
      (by rw [mockResults]; exact List.mem_cons_of_mem _ (List.mem_cons_of_mem _ (List.mem_cons_self _ _)))⟩

end Langscape
